import Mathlib

/-!
Shallow embedding of the mcinstall protocol client
(src/src/mcinstall.c, headers in src/src/mcinstall.h and
src/include/libimobiledevice/mcinstall.h).

Structured property-list values are modelled as a tree type `plist`;
the transport (property_list_service) is modelled by a `Transport`
record giving the outcome of the one send and the one receive an
operation performs, and each operation additionally returns the trace
of requests it handed to the transport, so that claims about what was
sent (or that nothing was sent) can be stated.
-/

namespace Mcinstall

/-- libplist node kinds used by mcinstall.c. -/
inductive NodeType where
  | DICT
  | ARRAY
  | STRING
  | UINT
  | DATA
deriving DecidableEq, Repr

mutual
/-- Structured property-list values: the subset of libplist node kinds
that mcinstall.c builds or inspects (strings, unsigned integers, binary
data, arrays, dictionaries). Binary data bytes are modelled as naturals. -/
inductive plist where
  | string (s : String)
  | uint (n : Nat)
  | data (d : List Nat)
  | array (l : plists)
  | dict (d : pdict)
deriving DecidableEq
/-- Contents of a plist array node, in order. -/
inductive plists where
  | nil
  | cons (p : plist) (l : plists)
deriving DecidableEq
/-- Key-value bindings of a plist dictionary node, in insertion order. -/
inductive pdict where
  | nil
  | cons (k : String) (v : plist) (d : pdict)
deriving DecidableEq
end


/-- plist_get_node_type: the kind of a node. -/
def plist_get_node_type : plist → NodeType
  | .string _ => .STRING
  | .uint _ => .UINT
  | .data _ => .DATA
  | .array _ => .ARRAY
  | .dict _ => .DICT

/-- First binding of a key in a dictionary body. -/
def pdict_get : pdict → String → Option plist
  | .nil, _ => none
  | .cons k v d, key => if k = key then some v else pdict_get d key

/-- plist_dict_get_item: looks up a key in a dict node; NULL (none) on a
non-dict node or a missing key. -/
def plist_dict_get_item : plist → String → Option plist
  | .dict d, key => pdict_get d key
  | _, _ => none

/-- plist_get_string_val on a node already checked to be a string. -/
def plist_get_string_val : plist → String
  | .string s => s
  | _ => ""

/-- plist_array_get_size: number of elements of an array node, 0 otherwise. -/
def plists_length : plists → Nat
  | .nil => 0
  | .cons _ l => plists_length l + 1

/-- The elements of an array node (empty for a non-array node). -/
def plist_array_items : plist → plists
  | .array l => l
  | _ => .nil

/-- plist_copy: a deep copy; as a pure value the copy equals the original. -/
def plist_copy (p : plist) : plist := p

/-- Number of bindings of a dictionary body. -/
def pdict_length : pdict → Nat
  | .nil => 0
  | .cons _ _ d => pdict_length d + 1

/-- property_list_service_error_t (property_list_service.h). -/
inductive property_list_service_error_t where
  | SUCCESS
  | INVALID_ARG
  | PLIST_ERROR
  | MUX_ERROR
  | SSL_ERROR
  | RECEIVE_TIMEOUT
  | NOT_ENOUGH_DATA
  | UNKNOWN_ERROR
deriving DecidableEq, Repr

/-- mcinstall_error_t (include/libimobiledevice/mcinstall.h). -/
inductive mcinstall_error_t where
  | SUCCESS
  | INVALID_ARG
  | PLIST_ERROR
  | CONN_FAILED
  | REQUEST_FAILED
  | UNKNOWN_ERROR
deriving DecidableEq, Repr

/-- The numeric values of the mcinstall_error_t enum constants. -/
def errCode : mcinstall_error_t → Int
  | .SUCCESS => 0
  | .INVALID_ARG => -1
  | .PLIST_ERROR => -2
  | .CONN_FAILED => -3
  | .REQUEST_FAILED => -4
  | .UNKNOWN_ERROR => -256

/-- mcinstall_error: maps a property_list_service error to an
mcinstall error (mcinstall.c lines 44-59). -/
def mcinstall_error : property_list_service_error_t → mcinstall_error_t
  | .SUCCESS => .SUCCESS
  | .INVALID_ARG => .INVALID_ARG
  | .PLIST_ERROR => .PLIST_ERROR
  | .MUX_ERROR => .CONN_FAILED
  | _ => .UNKNOWN_ERROR

/-- The LocalizedDescription string printed for one ErrorChain entry, if
the entry is a dict carrying a string LocalizedDescription field. -/
def entryMessage (e : plist) : Option String :=
  if plist_get_node_type e = NodeType.DICT then
    match plist_dict_get_item e "LocalizedDescription" with
    | some n =>
      if plist_get_node_type n = NodeType.STRING then
        some (plist_get_string_val n)
      else none
    | none => none
  else none

/-- The LocalizedDescription strings printed while walking an ErrorChain
array, in order. -/
def chainMessages : plists → List String
  | .nil => []
  | .cons e l =>
    match entryMessage e with
    | some s => s :: chainMessages l
    | none => chainMessages l

/-- mcinstall_check_result (mcinstall.c lines 70-111). The C function
takes an int pointer status_code; its body never assigns through it, so
the model threads the value through and returns it unchanged as the
second component. The third component is the list of LocalizedDescription
strings the C code prints while walking the ErrorChain. -/
def mcinstall_check_result (response : plist) (status_code : Int) :
    mcinstall_error_t × Int × List String :=
  if plist_get_node_type response ≠ NodeType.DICT then
    (.PLIST_ERROR, status_code, [])
  else
    match plist_dict_get_item response "Status" with
    | none => (.PLIST_ERROR, status_code, [])
    | some node =>
      if plist_get_node_type node ≠ NodeType.STRING then
        (.PLIST_ERROR, status_code, [])
      else
        let status := plist_get_string_val node
        if status = "Acknowledged" then (.SUCCESS, status_code, [])
        else if status = "Error" then
          let msgs :=
            match plist_dict_get_item response "ErrorChain" with
            | some chain =>
              if plist_get_node_type chain = NodeType.ARRAY then
                chainMessages (plist_array_items chain)
              else []
            | none => []
          (.PLIST_ERROR, status_code, msgs)
        else (.REQUEST_FAILED, status_code, [])

/-- property_list_service_client_private: the only fact about it that
mcinstall.c inspects is whether its own parent (service client) pointer
is set, which mcinstall_client_free tests before releasing the channel. -/
structure property_list_service_client where
  parentPresent : Bool
deriving DecidableEq, Repr

/-- struct mcinstall_client_private (src/src/mcinstall.h): a parent
property-list-service channel pointer and the last_error int. none
models a NULL parent pointer. -/
structure mcinstall_client_private where
  parent : Option property_list_service_client
  last_error : Int
deriving DecidableEq, Repr

/-- A client handle; none models a NULL mcinstall_client_t. -/
abbrev mcinstall_client_t := Option mcinstall_client_private

/-- Behavior of the transport during one operation: the error returned
by property_list_service_send_xml_plist, the error returned by
property_list_service_receive_plist, and the plist that the receive
yields (none models a NULL response plist). -/
structure Transport where
  sendErr : property_list_service_error_t
  recvErr : property_list_service_error_t
  recvPlist : Option plist
deriving DecidableEq

/-- Outcome of one operation without an out-parameter: the returned
error, the client state after the call, and the trace of requests handed
to the transport send, in order. -/
structure OpResult where
  ret : mcinstall_error_t
  client : mcinstall_client_t
  sent : List plist
deriving DecidableEq

/-- mcinstall_install (mcinstall.c lines 151-185). -/
def mcinstall_install (client : mcinstall_client_t) (profile : Option plist)
    (tr : Transport) : OpResult :=
  match client with
  | none => ⟨.INVALID_ARG, none, []⟩
  | some c =>
    match c.parent, profile with
    | none, _ => ⟨.INVALID_ARG, some c, []⟩
    | some _, none => ⟨.INVALID_ARG, some c, []⟩
    | some _, some p =>
      if plist_get_node_type p ≠ NodeType.DATA then ⟨.INVALID_ARG, some c, []⟩
      else
        let c1 : mcinstall_client_private := ⟨c.parent, errCode .UNKNOWN_ERROR⟩
        let dict : plist := .dict (.cons "RequestType" (.string "InstallProfile")
          (.cons "Payload" (plist_copy p) .nil))
        let res := mcinstall_error tr.sendErr
        if res ≠ .SUCCESS then ⟨res, some c1, [dict]⟩
        else
          let res2 := mcinstall_error tr.recvErr
          if res2 ≠ .SUCCESS then ⟨res2, some c1, [dict]⟩
          else
            match tr.recvPlist with
            | none => ⟨.UNKNOWN_ERROR, some c1, [dict]⟩
            | some respDict =>
              let r := mcinstall_check_result respDict c1.last_error
              ⟨r.1, some ⟨c1.parent, r.2.1⟩, [dict]⟩

/-- Outcome of mcinstall_get_profile_list: like OpResult, plus the value
written through the profiles out-pointer (none means the pointer was
left untouched). -/
structure ListResult where
  ret : mcinstall_error_t
  client : mcinstall_client_t
  sent : List plist
  profiles : Option plist
deriving DecidableEq

/-- mcinstall_get_profile_list (mcinstall.c lines 187-224).
profilesNull models whether the profiles out-pointer itself is NULL. -/
def mcinstall_get_profile_list (client : mcinstall_client_t)
    (profilesNull : Bool) (tr : Transport) : ListResult :=
  match client with
  | none => ⟨.INVALID_ARG, none, [], none⟩
  | some c =>
    match c.parent with
    | none => ⟨.INVALID_ARG, some c, [], none⟩
    | some _ =>
      if profilesNull then ⟨.INVALID_ARG, some c, [], none⟩
      else
        let c1 : mcinstall_client_private := ⟨c.parent, errCode .UNKNOWN_ERROR⟩
        let dict : plist := .dict (.cons "RequestType" (.string "GetProfileList") .nil)
        let res := mcinstall_error tr.sendErr
        if res ≠ .SUCCESS then ⟨res, some c1, [dict], none⟩
        else
          let res2 := mcinstall_error tr.recvErr
          if res2 ≠ .SUCCESS then ⟨res2, some c1, [dict], none⟩
          else
            match tr.recvPlist with
            | none => ⟨.UNKNOWN_ERROR, some c1, [dict], none⟩
            | some respDict =>
              let r := mcinstall_check_result respDict c1.last_error
              let c2 : mcinstall_client_private := ⟨c1.parent, r.2.1⟩
              if r.1 = .SUCCESS then
                ⟨r.1, some c2, [dict], some (plist_copy respDict)⟩
              else ⟨r.1, some c2, [dict], none⟩

mutual
/-- Modelled from the spec: plist_to_bin of the external libplist codec
(the "compact binary encoding" of section 4.4 of the spec), whose source
is not part of this repository. Bytes are modelled as naturals; each
node is emitted as a tag, a length where needed, and its contents. -/
def encP : plist → List Nat
  | .string s => 0 :: s.length :: s.data.map Char.toNat
  | .uint n => [1, n]
  | .data d => 2 :: d.length :: d
  | .array l => 3 :: plists_length l :: encPs l
  | .dict d => 4 :: pdict_length d :: encEntries d
/-- Encoding of the elements of an array node, concatenated. -/
def encPs : plists → List Nat
  | .nil => []
  | .cons p l => encP p ++ encPs l
/-- Encoding of dictionary bindings: each key as a string chunk, then
the value, concatenated over the bindings. -/
def encEntries : pdict → List Nat
  | .nil => []
  | .cons k v d => (0 :: k.length :: k.data.map Char.toNat) ++ encP v ++ encEntries d
end

/-- plist_to_bin (external codec, modelled from the spec). -/
def plist_to_bin (p : plist) : List Nat := encP p

mutual
/-- Modelled from the spec: the decoder inverting plist_to_bin. Parses
one node from the stream, returning it with the unconsumed rest; the
fuel bounds the recursion depth. -/
def decP : Nat → List Nat → Option (plist × List Nat)
  | 0, _ => none
  | _ + 1, 0 :: n :: rest =>
    if n ≤ rest.length then
      some (.string (String.mk ((rest.take n).map Char.ofNat)), rest.drop n)
    else none
  | _ + 1, 1 :: n :: rest => some (.uint n, rest)
  | _ + 1, 2 :: n :: rest =>
    if n ≤ rest.length then some (.data (rest.take n), rest.drop n) else none
  | fuel + 1, 3 :: n :: rest =>
    match decPs fuel n rest with
    | some (l, r) => some (.array l, r)
    | none => none
  | fuel + 1, 4 :: n :: rest =>
    match decEntries fuel n rest with
    | some (d, r) => some (.dict d, r)
    | none => none
  | _ + 1, _ => none
/-- Parses a count of array elements. -/
def decPs : Nat → Nat → List Nat → Option (plists × List Nat)
  | 0, _, _ => none
  | _ + 1, 0, rest => some (.nil, rest)
  | fuel + 1, n + 1, rest =>
    match decP fuel rest with
    | some (p, r1) =>
      match decPs fuel n r1 with
      | some (l, r2) => some (.cons p l, r2)
      | none => none
    | none => none
/-- Parses a count of dictionary bindings (key chunk, then value). -/
def decEntries : Nat → Nat → List Nat → Option (pdict × List Nat)
  | 0, _, _ => none
  | _ + 1, 0, rest => some (.nil, rest)
  | fuel + 1, n + 1, 0 :: m :: rest =>
    if m ≤ rest.length then
      match decP fuel (rest.drop m) with
      | some (v, r1) =>
        match decEntries fuel n r1 with
        | some (d, r2) =>
          some (.cons (String.mk ((rest.take m).map Char.ofNat)) v d, r2)
        | none => none
      | none => none
    else none
  | _ + 1, _ + 1, _ => none
end

/-- Modelled from the spec: decoding a complete binary blob back to a
plist, the inverse direction of plist_to_bin. The fuel is generous; the
needed recursion depth never exceeds the length of the input. -/
def bin_to_plist (l : List Nat) : Option plist :=
  match decP (l.length + 6) l with
  | some (p, List.nil) => some p
  | _ => none

/-- mcinstall_remove (mcinstall.c lines 226-273). The identifier and
uuid arguments are C strings whose NULL case is modelled by none; the
version is the uint64 payloadVersion, tested for zero by the C code. -/
def mcinstall_remove (client : mcinstall_client_t)
    (payloadIdentifier payloadUUID : Option String) (payloadVersion : Nat)
    (tr : Transport) : OpResult :=
  match client with
  | none => ⟨.INVALID_ARG, none, []⟩
  | some c =>
    match c.parent, payloadIdentifier, payloadUUID with
    | none, _, _ => ⟨.INVALID_ARG, some c, []⟩
    | some _, none, _ => ⟨.INVALID_ARG, some c, []⟩
    | some _, some _, none => ⟨.INVALID_ARG, some c, []⟩
    | some _, some pid, some puuid =>
      if payloadVersion = 0 then ⟨.INVALID_ARG, some c, []⟩
      else
        let c1 : mcinstall_client_private := ⟨c.parent, errCode .UNKNOWN_ERROR⟩
        let descriptor : plist := .dict (.cons "PayloadType" (.string "Configuration")
          (.cons "PayloadIdentifier" (.string pid)
          (.cons "PayloadUUID" (.string puuid)
          (.cons "PayloadVersion" (.uint payloadVersion) .nil))))
        let bin := plist_to_bin descriptor
        let dict : plist := .dict (.cons "RequestType" (.string "RemoveProfile")
          (.cons "ProfileIdentifier" (.data bin) .nil))
        let res := mcinstall_error tr.sendErr
        if res ≠ .SUCCESS then ⟨res, some c1, [dict]⟩
        else
          let res2 := mcinstall_error tr.recvErr
          if res2 ≠ .SUCCESS then ⟨res2, some c1, [dict]⟩
          else
            match tr.recvPlist with
            | none => ⟨.UNKNOWN_ERROR, some c1, [dict]⟩
            | some respDict =>
              let r := mcinstall_check_result respDict c1.last_error
              ⟨r.1, some ⟨c1.parent, r.2.1⟩, [dict]⟩

/-- mcinstall_client_free (mcinstall.c lines 136-149). freeErr is the
error that property_list_service_client_free would report; the C code
discards it. Returns the mcinstall error together with the number of
channel releases performed. -/
def mcinstall_client_free (client : mcinstall_client_t)
    (freeErr : property_list_service_error_t) : mcinstall_error_t × Nat :=
  match client with
  | none => (.INVALID_ARG, 0)
  | some c =>
    let err := mcinstall_error_t.SUCCESS
    match c.parent with
    | some p =>
      if p.parentPresent then
        let _ := mcinstall_error freeErr
        (err, 1)
      else (err, 0)
    | none => (err, 0)

/-- mcinstall_get_status_code (mcinstall.c lines 275-281). -/
def mcinstall_get_status_code : mcinstall_client_t → Int
  | none => -1
  | some c => c.last_error

/-- Decoding a string chunk recovers the string and leaves the rest. -/
theorem decP_string_chunk (s : String) (f : Nat) (rest : List Nat) :
    decP (f + 1) (encP (.string s) ++ rest) = some (.string s, rest) := by
  have hlen : (s.data.map Char.toNat).length = s.length := by
    rw [List.length_map]; rfl
  have hmap : List.map (Char.ofNat ∘ Char.toNat) s.data = s.data := by
    simp [Function.comp_def, Char.ofNat_toNat]
  have heta : String.mk s.data = s := rfl
  simp only [encP, List.cons_append]
  rw [decP]
  rw [List.take_left' hlen, List.drop_left' hlen]
  simp [List.length_append, hlen, List.map_map, hmap, heta]

/-- Decoding a uint chunk recovers the number. -/
theorem decP_uint_chunk (n : Nat) (f : Nat) (rest : List Nat) :
    decP (f + 1) (encP (.uint n) ++ rest) = some (.uint n, rest) := by
  simp [encP, decP]

/-- Decoding one dictionary binding (key chunk then value) and recursing. -/
theorem decEntries_step (f n : Nat) (k : String) (v : plist) (tail : List Nat)
    (hv : ∀ g r, decP (g + 1) (encP v ++ r) = some (v, r)) :
    decEntries (f + 2) (n + 1) ((0 :: k.length :: k.data.map Char.toNat) ++ encP v ++ tail) =
      match decEntries (f + 1) n tail with
      | some (dd, r) => some (pdict.cons k v dd, r)
      | none => none := by
  have hlen : (k.data.map Char.toNat).length = k.length := by
    rw [List.length_map]; rfl
  have hmap : List.map (Char.ofNat ∘ Char.toNat) k.data = k.data := by
    simp [Function.comp_def, Char.ofNat_toNat]
  have heta : String.mk k.data = k := rfl
  simp only [List.cons_append, List.append_assoc]
  rw [decEntries]
  rw [List.take_left' hlen, List.drop_left' hlen]
  rw [hv f tail]
  simp [List.length_append, hlen, List.map_map, hmap, heta]

/-- decEntries_step restated in the cons-normalized form that simp
produces for encoded streams. -/
theorem decEntries_step2 (f n : Nat) (k : String) (v : plist) (tail : List Nat)
    (hv : ∀ g r, decP (g + 1) (encP v ++ r) = some (v, r)) :
    decEntries (f + 2) (n + 1)
      (0 :: k.length :: (k.data.map Char.toNat ++ (encP v ++ tail))) =
      match decEntries (f + 1) n tail with
      | some (dd, r) => some (pdict.cons k v dd, r)
      | none => none := by
  simpa only [List.cons_append, List.append_assoc] using decEntries_step f n k v tail hv

/-- Decoding the encoding of a four-binding dictionary body whose first
three values are strings and whose last value is a uint. -/
theorem decEntries_four (f : Nat) (k1 k2 k3 k4 s1 s2 s3 : String) (v : Nat)
    (rest : List Nat) :
    decEntries (f + 5) 4
      (0 :: k1.length :: (k1.data.map Char.toNat ++ (encP (.string s1) ++
       (0 :: k2.length :: (k2.data.map Char.toNat ++ (encP (.string s2) ++
        (0 :: k3.length :: (k3.data.map Char.toNat ++ (encP (.string s3) ++
         (0 :: k4.length :: (k4.data.map Char.toNat ++ (encP (.uint v) ++
          rest)))))))))))) =
    some (.cons k1 (.string s1) (.cons k2 (.string s2)
      (.cons k3 (.string s3) (.cons k4 (.uint v) .nil))), rest) := by
  rw [decEntries_step2 (f + 3) 3 k1 (.string s1) _ (fun g r => decP_string_chunk s1 g r)]
  rw [decEntries_step2 (f + 2) 2 k2 (.string s2) _ (fun g r => decP_string_chunk s2 g r)]
  rw [decEntries_step2 (f + 1) 1 k3 (.string s3) _ (fun g r => decP_string_chunk s3 g r)]
  rw [decEntries_step2 f 0 k4 (.uint v) _ (fun g r => decP_uint_chunk v g r)]
  rw [decEntries]

/-- Decoding the encoding of the RemoveProfile inner descriptor dict
recovers it exactly, for every identifier, uuid and version. -/
theorem decP_descriptor (pid puuid : String) (v : Nat) (f : Nat) (rest : List Nat) :
    decP (f + 6) (encP (.dict (.cons "PayloadType" (.string "Configuration")
      (.cons "PayloadIdentifier" (.string pid)
      (.cons "PayloadUUID" (.string puuid)
      (.cons "PayloadVersion" (.uint v) .nil))))) ++ rest) =
    some (.dict (.cons "PayloadType" (.string "Configuration")
      (.cons "PayloadIdentifier" (.string pid)
      (.cons "PayloadUUID" (.string puuid)
      (.cons "PayloadVersion" (.uint v) .nil)))), rest) := by
  have h := decEntries_four f "PayloadType" "PayloadIdentifier" "PayloadUUID"
    "PayloadVersion" "Configuration" pid puuid v rest
  have hc : (0 : Nat) + 1 + 1 + 1 + 1 = 4 := rfl
  simp only [encP, List.cons_append, List.append_assoc, List.nil_append,
    List.append_nil] at h
  simp only [encP, encEntries, pdict_length, List.cons_append, List.append_assoc,
    List.nil_append, List.append_nil]
  rw [decP]
  rw [hc, h]

/-- Full round trip: serializing the RemoveProfile inner descriptor and
decoding the blob yields the descriptor back. -/
theorem bin_to_plist_descriptor (pid puuid : String) (v : Nat) :
    bin_to_plist (plist_to_bin (.dict (.cons "PayloadType" (.string "Configuration")
      (.cons "PayloadIdentifier" (.string pid)
      (.cons "PayloadUUID" (.string puuid)
      (.cons "PayloadVersion" (.uint v) .nil)))))) =
    some (.dict (.cons "PayloadType" (.string "Configuration")
      (.cons "PayloadIdentifier" (.string pid)
      (.cons "PayloadUUID" (.string puuid)
      (.cons "PayloadVersion" (.uint v) .nil))))) := by
  have h := decP_descriptor pid puuid v
    (encP (.dict (.cons "PayloadType" (.string "Configuration")
      (.cons "PayloadIdentifier" (.string pid)
      (.cons "PayloadUUID" (.string puuid)
      (.cons "PayloadVersion" (.uint v) .nil)))))).length []
  rw [List.append_nil] at h
  simp [bin_to_plist, plist_to_bin, h]

/-- Whatever the transport does, mcinstall_install with valid arguments
hands exactly one request to the transport, the InstallProfile dict. -/
theorem install_sent_eq (c : mcinstall_client_private) (p : property_list_service_client)
    (pr : plist) (tr : Transport) (hpp : c.parent = some p)
    (hd : plist_get_node_type pr = NodeType.DATA) :
    (mcinstall_install (some c) (some pr) tr).sent =
      [plist.dict (.cons "RequestType" (.string "InstallProfile")
        (.cons "Payload" (plist_copy pr) .nil))] := by
  simp only [mcinstall_install, hpp, hd]
  repeat' split
  all_goals simp_all

/-- Whatever the transport does, mcinstall_remove with valid arguments
hands exactly one request to the transport, the RemoveProfile dict. -/
theorem remove_sent_eq (c : mcinstall_client_private) (p : property_list_service_client)
    (pid puuid : String) (v : Nat) (tr : Transport) (hpp : c.parent = some p)
    (hv : v ≠ 0) :
    (mcinstall_remove (some c) (some pid) (some puuid) v tr).sent =
      [plist.dict (.cons "RequestType" (.string "RemoveProfile")
        (.cons "ProfileIdentifier" (.data (plist_to_bin
          (.dict (.cons "PayloadType" (.string "Configuration")
            (.cons "PayloadIdentifier" (.string pid)
            (.cons "PayloadUUID" (.string puuid)
            (.cons "PayloadVersion" (.uint v) .nil))))))) .nil))] := by
  simp only [mcinstall_remove, hpp, hv]
  repeat' split
  all_goals simp_all

/-- Claim C1: for every response value, mcinstall_check_result fails with
the protocol error (MCINSTALL_E_PLIST_ERROR) when the response is not a
dict or its Status field is absent or not a string; classifies Status
"Acknowledged" as success; classifies Status "Error" as the protocol
error regardless of the ErrorChain contents; and classifies any other
Status string as MCINSTALL_E_REQUEST_FAILED. -/
theorem C1_check_result_classification (response : plist) (sc : Int) :
    (plist_get_node_type response ≠ NodeType.DICT →
      (mcinstall_check_result response sc).1 = .PLIST_ERROR)
  ∧ (plist_dict_get_item response "Status" = none →
      (mcinstall_check_result response sc).1 = .PLIST_ERROR)
  ∧ (∀ st, plist_dict_get_item response "Status" = some st →
      plist_get_node_type st ≠ NodeType.STRING →
      (mcinstall_check_result response sc).1 = .PLIST_ERROR)
  ∧ (plist_dict_get_item response "Status" = some (.string "Acknowledged") →
      (mcinstall_check_result response sc).1 = .SUCCESS)
  ∧ (plist_dict_get_item response "Status" = some (.string "Error") →
      (mcinstall_check_result response sc).1 = .PLIST_ERROR)
  ∧ (∀ s, plist_dict_get_item response "Status" = some (.string s) →
      s ≠ "Acknowledged" → s ≠ "Error" →
      (mcinstall_check_result response sc).1 = .REQUEST_FAILED) := by
  refine ⟨?_, ?_, ?_, ?_, ?_, ?_⟩
  · intro h
    simp [mcinstall_check_result, h]
  · intro h
    cases response <;>
      simp_all [mcinstall_check_result, plist_get_node_type, plist_dict_get_item]
  · intro st h hty
    cases response <;>
      simp_all [mcinstall_check_result, plist_get_node_type, plist_dict_get_item]
  · intro h
    cases response <;>
      simp_all [mcinstall_check_result, plist_get_node_type, plist_dict_get_item,
        plist_get_string_val]
  · intro h
    cases response <;>
      simp_all [mcinstall_check_result, plist_get_node_type, plist_dict_get_item,
        plist_get_string_val]
  · intro s h h1 h2
    cases response <;>
      simp_all [mcinstall_check_result, plist_get_node_type, plist_dict_get_item,
        plist_get_string_val]

/-- Witness for C1 at the four concrete response shapes of the spec. -/
theorem C1_witness :
    (mcinstall_check_result (.dict (.cons "Status" (.string "Acknowledged") .nil)) 0).1
      = .SUCCESS ∧
    (mcinstall_check_result (.dict (.cons "Status" (.string "Error") .nil)) 0).1
      = .PLIST_ERROR ∧
    (mcinstall_check_result (.dict (.cons "Status" (.string "Pending") .nil)) 0).1
      = .REQUEST_FAILED ∧
    (mcinstall_check_result (.uint 3) 0).1 = .PLIST_ERROR :=
  ⟨(C1_check_result_classification _ 0).2.2.2.1 (by decide),
   (C1_check_result_classification _ 0).2.2.2.2.1 (by decide),
   (C1_check_result_classification _ 0).2.2.2.2.2 "Pending" (by decide) (by decide) (by decide),
   (C1_check_result_classification _ 0).1 (by decide)⟩

/-- Claim C2: the claim says the cached status code is set from the
classification outcome of a completed operation. Evaluating the code on
a full, acknowledged round trip shows the classification succeeds while
the cached status still holds the unknown sentinel -256, because the C
body of mcinstall_check_result never assigns through its status_code
out-parameter (contradicting its own doc comment); the last conjunct
shows the classifier leaves an arbitrary incoming status code unchanged. -/
theorem C2_status_code_not_updated_by_classification :
    (mcinstall_install (some ⟨some ⟨true⟩, 0⟩) (some (.data [7]))
      ⟨.SUCCESS, .SUCCESS, some (.dict (.cons "Status" (.string "Acknowledged") .nil))⟩).ret
      = .SUCCESS ∧
    mcinstall_get_status_code
      (mcinstall_install (some ⟨some ⟨true⟩, 0⟩) (some (.data [7]))
        ⟨.SUCCESS, .SUCCESS, some (.dict (.cons "Status" (.string "Acknowledged") .nil))⟩).client
      = errCode .UNKNOWN_ERROR ∧
    errCode .UNKNOWN_ERROR ≠ errCode .SUCCESS ∧
    (mcinstall_check_result (.dict (.cons "Status" (.string "Pending") .nil)) 11).2.1 = 11 := by
  refine ⟨by decide, by decide, by decide, by decide⟩

/-- Claim C3: the RemoveProfile request built by mcinstall_remove has
RequestType RemoveProfile and a binary ProfileIdentifier field that
decodes back to the descriptor dict carrying exactly the identifier,
uuid and version that were passed in. -/
theorem C3_remove_descriptor_roundtrip (c : mcinstall_client_private)
    (p : property_list_service_client) (hpp : c.parent = some p)
    (pid puuid : String) (v : Nat) (hv : v ≠ 0) (tr : Transport) :
    ∃ req bin,
      (mcinstall_remove (some c) (some pid) (some puuid) v tr).sent = [req] ∧
      plist_dict_get_item req "RequestType" = some (.string "RemoveProfile") ∧
      plist_dict_get_item req "ProfileIdentifier" = some (.data bin) ∧
      ∃ desc, bin_to_plist bin = some desc ∧
        plist_dict_get_item desc "PayloadType" = some (.string "Configuration") ∧
        plist_dict_get_item desc "PayloadIdentifier" = some (.string pid) ∧
        plist_dict_get_item desc "PayloadUUID" = some (.string puuid) ∧
        plist_dict_get_item desc "PayloadVersion" = some (.uint v) := by
  refine ⟨_, plist_to_bin (.dict (.cons "PayloadType" (.string "Configuration")
    (.cons "PayloadIdentifier" (.string pid)
    (.cons "PayloadUUID" (.string puuid)
    (.cons "PayloadVersion" (.uint v) .nil))))),
    remove_sent_eq c p pid puuid v tr hpp hv, ?_, ?_, ?_⟩
  · simp [plist_dict_get_item, pdict_get]
  · simp [plist_dict_get_item, pdict_get]
  refine ⟨_, bin_to_plist_descriptor pid puuid v, ?_, ?_, ?_, ?_⟩ <;>
    simp [plist_dict_get_item, pdict_get]

/-- Witness for C3 at a concrete identifier, uuid and version. -/
theorem C3_witness :
    ∃ req bin,
      (mcinstall_remove (some ⟨some ⟨true⟩, 0⟩) (some "com.example.profile")
        (some "0000-1111") 2 ⟨.SUCCESS, .SUCCESS, none⟩).sent = [req] ∧
      plist_dict_get_item req "RequestType" = some (.string "RemoveProfile") ∧
      plist_dict_get_item req "ProfileIdentifier" = some (.data bin) ∧
      ∃ desc, bin_to_plist bin = some desc ∧
        plist_dict_get_item desc "PayloadType" = some (.string "Configuration") ∧
        plist_dict_get_item desc "PayloadIdentifier" = some (.string "com.example.profile") ∧
        plist_dict_get_item desc "PayloadUUID" = some (.string "0000-1111") ∧
        plist_dict_get_item desc "PayloadVersion" = some (.uint 2) :=
  C3_remove_descriptor_roundtrip ⟨some ⟨true⟩, 0⟩ ⟨true⟩ rfl "com.example.profile"
    "0000-1111" 2 (by decide) ⟨.SUCCESS, .SUCCESS, none⟩

/-- Claim C4: mcinstall_remove returns MCINSTALL_E_INVALID_ARG and
performs no channel send when the client is null or disconnected, the
identifier or uuid is null, or the version is zero. -/
theorem C4_remove_invalid_no_send (client : mcinstall_client_t)
    (pid puuid : Option String) (v : Nat) (tr : Transport)
    (h : client = none ∨ (∃ c, client = some c ∧ c.parent = none) ∨
         pid = none ∨ puuid = none ∨ v = 0) :
    (mcinstall_remove client pid puuid v tr).ret = .INVALID_ARG ∧
    (mcinstall_remove client pid puuid v tr).sent = [] := by
  rcases client with _ | c
  · exact ⟨rfl, rfl⟩
  rcases hp : c.parent with _ | p
  · constructor <;> simp [mcinstall_remove, hp]
  rcases pid with _ | pids
  · constructor <;> simp [mcinstall_remove, hp]
  rcases puuid with _ | puuids
  · constructor <;> simp [mcinstall_remove, hp]
  have hv : v = 0 := by
    simp [hp] at h
    exact h
  constructor <;> simp [mcinstall_remove, hp, hv]

/-- Witness for C4 at version zero on a connected client. -/
theorem C4_witness :
    (mcinstall_remove (some ⟨some ⟨true⟩, 0⟩) (some "com.example.profile") (some "0000-1111") 0
      ⟨.SUCCESS, .SUCCESS, none⟩).ret = .INVALID_ARG ∧
    (mcinstall_remove (some ⟨some ⟨true⟩, 0⟩) (some "com.example.profile") (some "0000-1111") 0
      ⟨.SUCCESS, .SUCCESS, none⟩).sent = [] :=
  C4_remove_invalid_no_send _ _ _ _ _ (Or.inr (Or.inr (Or.inr (Or.inr rfl))))

/-- Claim C5: for every connected client and binary-data profile,
mcinstall_install hands the transport exactly one request, a dict with
RequestType InstallProfile and a Payload equal to a copy of the profile
bytes. -/
theorem C5_install_single_request (c : mcinstall_client_private)
    (p : property_list_service_client) (d : List Nat) (tr : Transport)
    (hpp : c.parent = some p) :
    ∃ req, (mcinstall_install (some c) (some (.data d)) tr).sent = [req] ∧
      plist_get_node_type req = NodeType.DICT ∧
      plist_dict_get_item req "RequestType" = some (.string "InstallProfile") ∧
      plist_dict_get_item req "Payload" = some (plist_copy (.data d)) ∧
      plist_copy (.data d) = .data d := by
  refine ⟨.dict (.cons "RequestType" (.string "InstallProfile")
    (.cons "Payload" (plist_copy (.data d)) .nil)), ?_, ?_, ?_, ?_, rfl⟩
  · exact install_sent_eq c p (.data d) tr hpp rfl
  · rfl
  · rfl
  · simp [plist_dict_get_item, pdict_get]

/-- Witness for C5 at a concrete two-byte profile. -/
theorem C5_witness :
    ∃ req, (mcinstall_install (some ⟨some ⟨true⟩, 0⟩) (some (.data [7, 8]))
      ⟨.SUCCESS, .SUCCESS, none⟩).sent = [req] ∧
      plist_get_node_type req = NodeType.DICT ∧
      plist_dict_get_item req "RequestType" = some (.string "InstallProfile") ∧
      plist_dict_get_item req "Payload" = some (plist_copy (.data [7, 8])) ∧
      plist_copy (.data [7, 8]) = .data [7, 8] :=
  C5_install_single_request ⟨some ⟨true⟩, 0⟩ ⟨true⟩ [7, 8] ⟨.SUCCESS, .SUCCESS, none⟩ rfl

/-- Counterexample to C6: on a connected client with an empty binary
payload and an acknowledging device, mcinstall_install returns success,
not MCINSTALL_E_INVALID_ARG, and performs one channel send: the code
checks only that the profile node has the binary-data type, never that
it is non-empty. -/
theorem C6_counterexample :
    (mcinstall_install (some ⟨some ⟨true⟩, 0⟩) (some (.data []))
      ⟨.SUCCESS, .SUCCESS, some (.dict (.cons "Status" (.string "Acknowledged") .nil))⟩).ret
      = .SUCCESS ∧
    (mcinstall_install (some ⟨some ⟨true⟩, 0⟩) (some (.data []))
      ⟨.SUCCESS, .SUCCESS, some (.dict (.cons "Status" (.string "Acknowledged") .nil))⟩).ret
      ≠ .INVALID_ARG ∧
    (mcinstall_install (some ⟨some ⟨true⟩, 0⟩) (some (.data []))
      ⟨.SUCCESS, .SUCCESS, some (.dict (.cons "Status" (.string "Acknowledged") .nil))⟩).sent.length
      = 1 := by
  refine ⟨by decide, by decide, by decide⟩

/-- Claim C6 as amended: an empty binary-data payload passes the
argument check of mcinstall_install, so the InstallProfile request is
sent with the empty payload instead of being rejected before I/O. -/
theorem C6_empty_payload_is_sent (c : mcinstall_client_private)
    (p : property_list_service_client) (tr : Transport) (hpp : c.parent = some p) :
    (mcinstall_install (some c) (some (.data [])) tr).sent =
      [plist.dict (.cons "RequestType" (.string "InstallProfile")
        (.cons "Payload" (.data []) .nil))] :=
  install_sent_eq c p (.data []) tr hpp rfl

/-- Witness for the amended C6 at a concrete client and transport. -/
theorem C6_witness :
    (mcinstall_install (some ⟨some ⟨true⟩, 0⟩) (some (.data []))
      ⟨.MUX_ERROR, .SUCCESS, none⟩).sent =
      [plist.dict (.cons "RequestType" (.string "InstallProfile")
        (.cons "Payload" (.data []) .nil))] :=
  C6_empty_payload_is_sent ⟨some ⟨true⟩, 0⟩ ⟨true⟩ ⟨.MUX_ERROR, .SUCCESS, none⟩ rfl

/-- Claim C7: when the response classifies as success,
mcinstall_get_profile_list returns success and writes a copy of the raw
response dict itself to the out-parameter; in particular the acknowledged
response with an empty OrderedIdentifiers array still classifies as
success. -/
theorem C7_list_success_returns_raw_response (c : mcinstall_client_private)
    (p : property_list_service_client) (tr : Transport) (resp : plist)
    (hpp : c.parent = some p)
    (hs : mcinstall_error tr.sendErr = .SUCCESS)
    (hr : mcinstall_error tr.recvErr = .SUCCESS)
    (hresp : tr.recvPlist = some resp)
    (hok : (mcinstall_check_result resp (errCode .UNKNOWN_ERROR)).1 = .SUCCESS) :
    (mcinstall_get_profile_list (some c) false tr).ret = .SUCCESS ∧
    (mcinstall_get_profile_list (some c) false tr).profiles = some (plist_copy resp) ∧
    plist_copy resp = resp ∧
    (mcinstall_check_result (.dict (.cons "Status" (.string "Acknowledged")
      (.cons "OrderedIdentifiers" (.array .nil)
      (.cons "ProfileMetadata" (.dict .nil) .nil)))) (errCode .UNKNOWN_ERROR)).1
      = .SUCCESS := by
  refine ⟨?_, ?_, rfl, by decide⟩ <;>
    simp [mcinstall_get_profile_list, hpp, hs, hr, hresp, hok]

/-- Witness for C7 at the acknowledged empty-listing response. -/
theorem C7_witness :
    (mcinstall_get_profile_list (some ⟨some ⟨true⟩, 0⟩) false
      ⟨.SUCCESS, .SUCCESS, some (.dict (.cons "Status" (.string "Acknowledged")
        (.cons "OrderedIdentifiers" (.array .nil)
        (.cons "ProfileMetadata" (.dict .nil) .nil))))⟩).ret = .SUCCESS ∧
    (mcinstall_get_profile_list (some ⟨some ⟨true⟩, 0⟩) false
      ⟨.SUCCESS, .SUCCESS, some (.dict (.cons "Status" (.string "Acknowledged")
        (.cons "OrderedIdentifiers" (.array .nil)
        (.cons "ProfileMetadata" (.dict .nil) .nil))))⟩).profiles =
      some (plist_copy (.dict (.cons "Status" (.string "Acknowledged")
        (.cons "OrderedIdentifiers" (.array .nil)
        (.cons "ProfileMetadata" (.dict .nil) .nil))))) := by
  have h := C7_list_success_returns_raw_response ⟨some ⟨true⟩, 0⟩ ⟨true⟩
    ⟨.SUCCESS, .SUCCESS, some (.dict (.cons "Status" (.string "Acknowledged")
      (.cons "OrderedIdentifiers" (.array .nil)
      (.cons "ProfileMetadata" (.dict .nil) .nil))))⟩
    (.dict (.cons "Status" (.string "Acknowledged")
      (.cons "OrderedIdentifiers" (.array .nil)
      (.cons "ProfileMetadata" (.dict .nil) .nil))))
    rfl rfl rfl rfl (by decide)
  exact ⟨h.1, h.2.1⟩

/-- Claim C8: each operation resets the cached status to the unknown
sentinel before any channel I/O; when the send or the receive fails the
operation returns the fixed mapping of the transport error (a MUX, that
is transport-level, failure maps to MCINSTALL_E_CONN_FAILED) and the
cached status still holds the unknown sentinel. -/
theorem C8_transport_failure_behavior (c : mcinstall_client_private)
    (p : property_list_service_client) (hpp : c.parent = some p)
    (pr : plist) (hd : plist_get_node_type pr = NodeType.DATA)
    (pid puuid : String) (v : Nat) (hv : v ≠ 0) (tr : Transport) :
    mcinstall_error .MUX_ERROR = .CONN_FAILED
  ∧ (mcinstall_error tr.sendErr ≠ .SUCCESS →
      ((mcinstall_install (some c) (some pr) tr).ret = mcinstall_error tr.sendErr
    ∧ mcinstall_get_status_code (mcinstall_install (some c) (some pr) tr).client
        = errCode .UNKNOWN_ERROR
    ∧ (mcinstall_get_profile_list (some c) false tr).ret = mcinstall_error tr.sendErr
    ∧ mcinstall_get_status_code (mcinstall_get_profile_list (some c) false tr).client
        = errCode .UNKNOWN_ERROR
    ∧ (mcinstall_remove (some c) (some pid) (some puuid) v tr).ret
        = mcinstall_error tr.sendErr
    ∧ mcinstall_get_status_code
        (mcinstall_remove (some c) (some pid) (some puuid) v tr).client
        = errCode .UNKNOWN_ERROR))
  ∧ (mcinstall_error tr.sendErr = .SUCCESS → mcinstall_error tr.recvErr ≠ .SUCCESS →
      ((mcinstall_install (some c) (some pr) tr).ret = mcinstall_error tr.recvErr
    ∧ mcinstall_get_status_code (mcinstall_install (some c) (some pr) tr).client
        = errCode .UNKNOWN_ERROR
    ∧ (mcinstall_get_profile_list (some c) false tr).ret = mcinstall_error tr.recvErr
    ∧ mcinstall_get_status_code (mcinstall_get_profile_list (some c) false tr).client
        = errCode .UNKNOWN_ERROR
    ∧ (mcinstall_remove (some c) (some pid) (some puuid) v tr).ret
        = mcinstall_error tr.recvErr
    ∧ mcinstall_get_status_code
        (mcinstall_remove (some c) (some pid) (some puuid) v tr).client
        = errCode .UNKNOWN_ERROR)) := by
  refine ⟨rfl, ?_, ?_⟩
  · intro hs
    refine ⟨?_, ?_, ?_, ?_, ?_, ?_⟩ <;>
      simp [mcinstall_install, mcinstall_get_profile_list, mcinstall_remove,
        mcinstall_get_status_code, hpp, hd, hv, hs]
  · intro hs hr
    refine ⟨?_, ?_, ?_, ?_, ?_, ?_⟩ <;>
      simp [mcinstall_install, mcinstall_get_profile_list, mcinstall_remove,
        mcinstall_get_status_code, hpp, hd, hv, hs, hr]

/-- Witness for C8 at a MUX send failure on install. -/
theorem C8_witness :
    (mcinstall_install (some ⟨some ⟨true⟩, 0⟩) (some (.data [1]))
      ⟨.MUX_ERROR, .SUCCESS, none⟩).ret = .CONN_FAILED ∧
    mcinstall_get_status_code (mcinstall_install (some ⟨some ⟨true⟩, 0⟩) (some (.data [1]))
      ⟨.MUX_ERROR, .SUCCESS, none⟩).client = errCode .UNKNOWN_ERROR := by
  have h := (C8_transport_failure_behavior ⟨some ⟨true⟩, 0⟩ ⟨true⟩ rfl (.data [1]) rfl
    "com.example.profile" "0000-1111" 1 (by decide) ⟨.MUX_ERROR, .SUCCESS, none⟩).2.1 (by decide)
  exact ⟨h.1, h.2.1⟩

/-- Claim C9: mcinstall_client_free on a null client returns
MCINSTALL_E_INVALID_ARG; on every non-null client it releases the
channel at most once and returns success, whatever error the underlying
channel release would report. -/
theorem C9_free_null_and_single_release (freeErr : property_list_service_error_t)
    (c : mcinstall_client_private) :
    (mcinstall_client_free none freeErr).1 = .INVALID_ARG ∧
    (mcinstall_client_free (some c) freeErr).1 = .SUCCESS ∧
    (mcinstall_client_free (some c) freeErr).2 ≤ 1 := by
  refine ⟨rfl, ?_, ?_⟩ <;>
  · simp only [mcinstall_client_free]
    repeat' split
    all_goals simp

/-- Claim C10: mcinstall_get_profile_list leaves the profiles
out-parameter untouched on every non-success return. -/
theorem C10_profiles_untouched_on_failure (client : mcinstall_client_t)
    (profilesNull : Bool) (tr : Transport)
    (h : (mcinstall_get_profile_list client profilesNull tr).ret ≠ .SUCCESS) :
    (mcinstall_get_profile_list client profilesNull tr).profiles = none := by
  rcases client with _ | c
  · rfl
  rcases hp : c.parent with _ | p
  · simp [mcinstall_get_profile_list, hp]
  revert h
  simp only [mcinstall_get_profile_list, hp]
  repeat' split
  all_goals simp_all

/-- Witness for C10 at a null client handle. -/
theorem C10_witness :
    (mcinstall_get_profile_list none false ⟨.SUCCESS, .SUCCESS, none⟩).ret ≠ .SUCCESS ∧
    (mcinstall_get_profile_list none false ⟨.SUCCESS, .SUCCESS, none⟩).profiles = none :=
  ⟨by decide, C10_profiles_untouched_on_failure none false _ (by decide)⟩

end Mcinstall
